import Mathlib

/-!
Verification of the AgentsLocate HTTP boundary: request validation
(`core/models/repository.py`, `core/models/chat.py`), the error taxonomy
(`apps/api/exceptions/__init___.py`, the simulation module's copies), the
two error classifiers (`apps/api/utils/error_handlers.py`), the inline
except-chains of the simulation router (`apps/api/simulation_main.py`),
the route handlers (`apps/api/routes/*.py`) and their collaborators
(`apps/api/services/*.py`, the simulation placeholders).

Python exceptions are modelled as a class tag plus a message string;
`isinstance` is the reflexive-transitive closure of the declared base-class
relation. Pydantic model construction with string length constraints is
modelled as a checked constructor returning `Option` (`none` = pydantic
raised a `ValidationError` at construction). Python float literals are
modelled as rational constants.
-/

/-- Python exception classes in play: builtins plus the classes of
`apps/api/exceptions/__init___.py` (the `Exc*` constructors) and the
identically named but distinct classes of `apps/api/simulation_main.py`
lines 9-33 (the `Sim*` constructors). -/
inductive PyClass where
  | ExceptionC
  | ValueErrorC
  | OSErrorC
  | PermissionErrorC
  | FileNotFoundErrorC
  | ConnectionErrorC
  | RuntimeErrorC
  | NotImplementedErrorC
  | ExcInvalidURLError
  | ExcInvalidTokenError
  | ExcInsufficientPermissionsError
  | ExcRepoTooLargeError
  | ExcProcessingFailedError
  | ExcStorageError
  | ExcUnsupportedFormatError
  | SimInvalidURLError
  | SimInvalidTokenError
  | SimInsufficientPermissionsError
  | SimRepoTooLargeError
  | SimProcessingFailedError
  | SimStorageError
  | SimUnsupportedFormatError
deriving DecidableEq, BEq, Repr

/-- Declared base class of each class: builtin bases follow CPython
(`FileNotFoundError`, `PermissionError`, `ConnectionError` subclass
`OSError`; `NotImplementedError` subclasses `RuntimeError`); the custom
classes' bases are their `class C(Base)` declarations in
`exceptions/__init___.py` lines 3-29 and `simulation_main.py` lines 9-33. -/
def PyClass.base : PyClass → Option PyClass
  | .ExceptionC => none
  | .ValueErrorC => some .ExceptionC
  | .OSErrorC => some .ExceptionC
  | .PermissionErrorC => some .OSErrorC
  | .FileNotFoundErrorC => some .OSErrorC
  | .ConnectionErrorC => some .OSErrorC
  | .RuntimeErrorC => some .ExceptionC
  | .NotImplementedErrorC => some .RuntimeErrorC
  | .ExcInvalidURLError => some .ValueErrorC
  | .ExcInvalidTokenError => some .ValueErrorC
  | .ExcInsufficientPermissionsError => some .PermissionErrorC
  | .ExcRepoTooLargeError => some .ValueErrorC
  | .ExcProcessingFailedError => some .ExceptionC
  | .ExcStorageError => some .ExceptionC
  | .ExcUnsupportedFormatError => some .ExceptionC
  | .SimInvalidURLError => some .ValueErrorC
  | .SimInvalidTokenError => some .ValueErrorC
  | .SimInsufficientPermissionsError => some .PermissionErrorC
  | .SimRepoTooLargeError => some .ValueErrorC
  | .SimProcessingFailedError => some .ExceptionC
  | .SimStorageError => some .ExceptionC
  | .SimUnsupportedFormatError => some .ExceptionC

/-- Fuelled walk up the base-class chain (every chain here has depth at
most 3, so fuel 8 is exact). -/
def isinstAux : Nat → PyClass → PyClass → Bool
  | 0, _, _ => false
  | n + 1, c, d =>
    c == d ||
      (match PyClass.base c with
       | some b => isinstAux n b d
       | none => false)

/-- Python's `isinstance(e, D)` restricted to the class of `e`: true iff
the class `c` equals `d` or inherits from it. -/
def isinst (c d : PyClass) : Bool := isinstAux 8 c d

/-- A raised Python exception: its class and its message.  `str(e)` of an
exception constructed as `C(msg)` is `msg` (and `""` for no arguments). -/
structure PyExc where
  cls : PyClass
  msg : String
deriving DecidableEq, Repr

/-- Python `str(error)` on an exception value. -/
def PyExc.str (e : PyExc) : String := e.msg

/-- `IngestErrorResponse` (`core/models/repository.py` lines 40-43):
`success=False`, `error` 1-1000 chars, `error_code` 1-50 chars. -/
structure IngestErrorResponse where
  success : Bool
  error : String
  error_code : String
deriving DecidableEq, Repr

/-- Pydantic construction of `IngestErrorResponse(error=..., error_code=...)`:
`none` models the `ValidationError` pydantic raises when a field constraint
(`min_length`/`max_length` on `error` and `error_code`) is violated. -/
def IngestErrorResponse.mk? (error error_code : String) :
    Option IngestErrorResponse :=
  if 1 ≤ error.length ∧ error.length ≤ 1000 ∧
      1 ≤ error_code.length ∧ error_code.length ≤ 50 then
    some ⟨false, error, error_code⟩
  else
    none

/-- `ChatErrorResponse` (`core/models/chat.py` lines 50-53): same shape and
bounds as `IngestErrorResponse`. -/
structure ChatErrorResponse where
  success : Bool
  error : String
  error_code : String
deriving DecidableEq, Repr

/-- Pydantic construction of `ChatErrorResponse`, as for
`IngestErrorResponse.mk?`. -/
def ChatErrorResponse.mk? (error error_code : String) :
    Option ChatErrorResponse :=
  if 1 ≤ error.length ∧ error.length ≤ 1000 ∧
      1 ≤ error_code.length ∧ error_code.length ≤ 50 then
    some ⟨false, error, error_code⟩
  else
    none

/-- `handle_ingestion_error` (`apps/api/utils/error_handlers.py` lines
11-76): the isinstance chain over the `apps.api.exceptions` classes and
the builtins, producing `JSONResponse(status_code, content)`.  The result
is `none` when constructing the pydantic content model raises. -/
def handle_ingestion_error (error : PyExc) : Option (Nat × IngestErrorResponse) :=
  if isinst error.cls .ExcInvalidURLError then
    (IngestErrorResponse.mk? error.str "INVALID_URL").map (fun b => (400, b))
  else if isinst error.cls .ExcInvalidTokenError then
    (IngestErrorResponse.mk? error.str "INVALID_TOKEN").map (fun b => (401, b))
  else if isinst error.cls .ExcInsufficientPermissionsError then
    (IngestErrorResponse.mk? error.str "INSUFFICIENT_PERMISSIONS").map (fun b => (403, b))
  else if isinst error.cls .FileNotFoundErrorC then
    (IngestErrorResponse.mk? error.str "REPO_NOT_FOUND").map (fun b => (404, b))
  else if isinst error.cls .PermissionErrorC then
    (IngestErrorResponse.mk? error.str "PRIVATE_REPO_NO_TOKEN").map (fun b => (401, b))
  else if isinst error.cls .ExcRepoTooLargeError then
    (IngestErrorResponse.mk? error.str "REPO_TOO_LARGE").map (fun b => (422, b))
  else if isinst error.cls .ExcProcessingFailedError then
    (IngestErrorResponse.mk? error.str "PROCESSING_FAILED").map (fun b => (422, b))
  else if isinst error.cls .ExcStorageError then
    (IngestErrorResponse.mk? error.str "STORAGE_ERROR").map (fun b => (500, b))
  else if isinst error.cls .NotImplementedErrorC then
    (IngestErrorResponse.mk? "Ingestion agent not yet implemented" "NOT_IMPLEMENTED").map
      (fun b => (501, b))
  else
    (IngestErrorResponse.mk?
        "An unexpected error occurred during repository processing."
        "AGENT_ERROR").map (fun b => (500, b))

/-- `handle_chat_error` (`apps/api/utils/error_handlers.py` lines 79-119). -/
def handle_chat_error (error : PyExc) : Option (Nat × ChatErrorResponse) :=
  if isinst error.cls .FileNotFoundErrorC then
    (ChatErrorResponse.mk? error.str "REPO_NOT_INDEXED").map (fun b => (404, b))
  else if isinst error.cls .ValueErrorC then
    (ChatErrorResponse.mk? error.str "QUERY_PROCESSING_FAILED").map (fun b => (422, b))
  else if isinst error.cls .ConnectionErrorC then
    (ChatErrorResponse.mk? error.str "AGENT_UNAVAILABLE").map (fun b => (500, b))
  else if isinst error.cls .NotImplementedErrorC then
    (ChatErrorResponse.mk? "Chat agent not yet implemented" "NOT_IMPLEMENTED").map
      (fun b => (501, b))
  else
    (ChatErrorResponse.mk?
        "An unexpected error occurred while processing the chat request."
        "AGENT_ERROR").map (fun b => (500, b))

/-- The wire-observable `(status_code, error_code)` pair of an ingestion
error response (`none` when pydantic raised during its construction). -/
def ingestPair (r : Option (Nat × IngestErrorResponse)) : Option (Nat × String) :=
  r.map (fun p => (p.1, p.2.error_code))

/-- The wire-observable `(status_code, error_code)` pair of a chat error
response. -/
def chatPair (r : Option (Nat × ChatErrorResponse)) : Option (Nat × String) :=
  r.map (fun p => (p.1, p.2.error_code))

/-- The simulation router's inline except-chain for `POST /api/ingest`
(`apps/api/simulation_main.py` lines 165-218): same shape as
`handle_ingestion_error` but matching the simulation module's own
exception classes, and with no `NotImplementedError` clause. -/
def sim_ingest_error_chain (error : PyExc) : Option (Nat × IngestErrorResponse) :=
  if isinst error.cls .SimInvalidURLError then
    (IngestErrorResponse.mk? error.str "INVALID_URL").map (fun b => (400, b))
  else if isinst error.cls .SimInvalidTokenError then
    (IngestErrorResponse.mk? error.str "INVALID_TOKEN").map (fun b => (401, b))
  else if isinst error.cls .SimInsufficientPermissionsError then
    (IngestErrorResponse.mk? error.str "INSUFFICIENT_PERMISSIONS").map (fun b => (403, b))
  else if isinst error.cls .FileNotFoundErrorC then
    (IngestErrorResponse.mk? error.str "REPO_NOT_FOUND").map (fun b => (404, b))
  else if isinst error.cls .PermissionErrorC then
    (IngestErrorResponse.mk? error.str "PRIVATE_REPO_NO_TOKEN").map (fun b => (401, b))
  else if isinst error.cls .SimRepoTooLargeError then
    (IngestErrorResponse.mk? error.str "REPO_TOO_LARGE").map (fun b => (422, b))
  else if isinst error.cls .SimProcessingFailedError then
    (IngestErrorResponse.mk? error.str "PROCESSING_FAILED").map (fun b => (422, b))
  else if isinst error.cls .SimStorageError then
    (IngestErrorResponse.mk? error.str "STORAGE_ERROR").map (fun b => (500, b))
  else
    (IngestErrorResponse.mk?
        "An unexpected error occurred during repository processing."
        "AGENT_ERROR").map (fun b => (500, b))

/-- The simulation router's inline except-chain for `POST /api/chat`
(`apps/api/simulation_main.py` lines 240-268): no `NotImplementedError`
clause, unlike `handle_chat_error`. -/
def sim_chat_error_chain (error : PyExc) : Option (Nat × ChatErrorResponse) :=
  if isinst error.cls .FileNotFoundErrorC then
    (ChatErrorResponse.mk? error.str "REPO_NOT_INDEXED").map (fun b => (404, b))
  else if isinst error.cls .ValueErrorC then
    (ChatErrorResponse.mk? error.str "QUERY_PROCESSING_FAILED").map (fun b => (422, b))
  else if isinst error.cls .ConnectionErrorC then
    (ChatErrorResponse.mk? error.str "AGENT_UNAVAILABLE").map (fun b => (500, b))
  else
    (ChatErrorResponse.mk?
        "An unexpected error occurred while processing the chat request."
        "AGENT_ERROR").map (fun b => (500, b))

/-- The kind-preserving correspondence from the `apps.api.exceptions`
taxonomy classes to the simulation module's identically named classes;
the identity elsewhere. -/
def excToSim : PyClass → PyClass
  | .ExcInvalidURLError => .SimInvalidURLError
  | .ExcInvalidTokenError => .SimInvalidTokenError
  | .ExcInsufficientPermissionsError => .SimInsufficientPermissionsError
  | .ExcRepoTooLargeError => .SimRepoTooLargeError
  | .ExcProcessingFailedError => .SimProcessingFailedError
  | .ExcStorageError => .SimStorageError
  | .ExcUnsupportedFormatError => .SimUnsupportedFormatError
  | c => c

/-- Whether a class is one of the simulation module's own exception
classes (`simulation_main.py` lines 9-33). -/
def isSimClass : PyClass → Bool
  | .SimInvalidURLError => true
  | .SimInvalidTokenError => true
  | .SimInsufficientPermissionsError => true
  | .SimRepoTooLargeError => true
  | .SimProcessingFailedError => true
  | .SimStorageError => true
  | .SimUnsupportedFormatError => true
  | _ => false

/-- List-of-characters view of matching a literal at the front: returns
the remainder when the literal is a front segment, else `none`. -/
def dropLit : List Char → List Char → Option (List Char)
  | [], cs => some cs
  | _ :: _, [] => none
  | p :: ps, c :: cs => if c == p then dropLit ps cs else none

/-- Whether `pat` is a front segment of `cs`. -/
def hasPrefixL : List Char → List Char → Bool
  | [], _ => true
  | _ :: _, [] => false
  | p :: ps, c :: cs => c == p && hasPrefixL ps cs

/-- Whether `pat` occurs contiguously anywhere in the character list:
Python's `pat in s` on strings. -/
def hasSubstrL (pat : List Char) : List Char → Bool
  | [] => hasPrefixL pat []
  | c :: cs => hasPrefixL pat (c :: cs) || hasSubstrL pat cs

/-- Python's substring test `pat in s`. -/
def pyIn (pat s : String) : Bool := hasSubstrL pat.data s.data

/-- Character class `[a-zA-Z0-9._-]` of the GitHub URL pattern. -/
def urlSegChar (c : Char) : Bool :=
  ('a' ≤ c && c ≤ 'z') || ('A' ≤ c && c ≤ 'Z') || c.isDigit ||
    c == '.' || c == '_' || c == '-'

/-- The part after the fixed prefix: `[a-zA-Z0-9._-]+/[a-zA-Z0-9._-]+/?`
up to the very end of the input. -/
def githubTail (cs : List Char) : Bool :=
  let p1 := cs.span urlSegChar
  match p1.2 with
  | '/' :: r2 =>
    let p2 := r2.span urlSegChar
    !p1.1.isEmpty && !p2.1.isEmpty && (p2.2 == [] || p2.2 == ['/'])
  | _ => false

/-- The set of strings of the exact shape
`^https://github\.com/[a-zA-Z0-9._-]+/[a-zA-Z0-9._-]+/?$` with both
anchors read strictly (the match must span the whole string). -/
def strict_github_url_match (s : String) : Bool :=
  match dropLit ("https://github.com/".data) s.data with
  | some rest => githubTail rest
  | none => false

/-- `IngestRequest.validate_github_url` (`core/models/repository.py` lines
18-24): `re.match(github_pattern, v)` under Python semantics, where `$`
matches at the end of the string or just before a single trailing
newline, so `v` is accepted iff `v` or `v` minus a trailing `'\n'` has
the pattern's shape. -/
def validate_github_url (s : String) : Bool :=
  strict_github_url_match s ||
    (s.data.getLast? == some '\n' &&
      strict_github_url_match (String.mk s.data.dropLast))

/-- Lowercase-hex character class `[a-f0-9]`. -/
def hexLowerChar (c : Char) : Bool := ('a' ≤ c && c ≤ 'f') || c.isDigit

/-- The `repository_id` pattern `^repo-[a-f0-9]{8}$` of
`IngestSuccessResponse` (`core/models/repository.py` line 34). -/
def ingest_repo_id_ok (s : String) : Bool :=
  match dropLit ("repo-".data) s.data with
  | some rest => rest.length == 8 && rest.all hexLowerChar
  | none => false

/-- The `repository_id` pattern `^repo-[a-f0-9]{8}$` of `ChatRequest`
(`core/models/chat.py` line 14). -/
def chat_repo_id_ok (s : String) : Bool :=
  match dropLit ("repo-".data) s.data with
  | some rest => rest.length == 8 && rest.all hexLowerChar
  | none => false

/-- `IngestRequest` (`core/models/repository.py` lines 4-24). -/
structure IngestRequest where
  repository_url : String
  github_token : Option String
deriving DecidableEq, Repr

/-- Pydantic validation of an `IngestRequest` body: the declarative length
bounds on both fields plus the `validate_github_url` field validator;
`none` models the transport-level 422 rejection. -/
def IngestRequest.validate? (r : IngestRequest) : Option IngestRequest :=
  if (decide (19 ≤ r.repository_url.length) &&
      decide (r.repository_url.length ≤ 200) &&
      (match r.github_token with
       | none => true
       | some t => decide (4 ≤ t.length) && decide (t.length ≤ 200)) &&
      validate_github_url r.repository_url) then
    some r
  else
    none

/-- `ConversationEntry` (`core/models/chat.py` lines 3-5). -/
structure ConversationEntry where
  role : String
  content : String
deriving DecidableEq, Repr

/-- Field constraints of one `ConversationEntry`: `role` matches
`^(user|agent)$`, `content` is 1-5000 chars. -/
def ConversationEntry.ok (e : ConversationEntry) : Bool :=
  (e.role == "user" || e.role == "agent") &&
    decide (1 ≤ e.content.length) && decide (e.content.length ≤ 5000)

/-- `ChatRequest` (`core/models/chat.py` lines 7-28). -/
structure ChatRequest where
  message : String
  repository_id : String
  conversation_history : Option (List ConversationEntry)
deriving DecidableEq, Repr

/-- The declarative bound `max_items=10` on
`ChatRequest.conversation_history` (`core/models/chat.py` line 19): the
history, when present, declares at most 10 entries. -/
def conversation_history_max_items (v : Option (List ConversationEntry)) : Bool :=
  match v with
  | none => true
  | some l => decide (l.length ≤ 10)

/-- The explicit `validate_conversation_history` field validator
(`core/models/chat.py` lines 23-28): raises iff `v is not None and
len(v) > 10`; `true` means it accepts. -/
def validate_conversation_history (v : Option (List ConversationEntry)) : Bool :=
  match v with
  | none => true
  | some l => !decide (10 < l.length)

/-- Pydantic validation of a `ChatRequest` body: message bounds, the
`repository_id` pattern, per-entry constraints, the declarative history
bound and the explicit history validator. -/
def ChatRequest.validate? (r : ChatRequest) : Option ChatRequest :=
  if (decide (1 ≤ r.message.length) && decide (r.message.length ≤ 5000) &&
      chat_repo_id_ok r.repository_id &&
      (match r.conversation_history with
       | none => true
       | some l => l.all ConversationEntry.ok) &&
      conversation_history_max_items r.conversation_history &&
      validate_conversation_history r.conversation_history) then
    some r
  else
    none

/-- `ProcessingSummary` (`core/models/repository.py` lines 26-28); the
Python float is modelled as a rational. -/
structure ProcessingSummary where
  files_processed : Nat
  processing_time_seconds : Rat
deriving DecidableEq, Repr

/-- `IngestSuccessResponse` (`core/models/repository.py` lines 30-38). -/
structure IngestSuccessResponse where
  success : Bool
  repository_id : String
  message : String
  processing_summary : ProcessingSummary
deriving DecidableEq, Repr

/-- `FileSuggestion` (`core/models/chat.py` lines 30-35). -/
structure FileSuggestion where
  file_name : String
  file_path : String
  github_url : String
  description : String
  relevance_score : Rat
deriving DecidableEq, Repr

/-- `ChatMetadata` (`core/models/chat.py` lines 37-39). -/
structure ChatMetadata where
  processing_time_ms : Nat
  search_strategy : String
deriving DecidableEq, Repr

/-- `ChatSuccessResponse` (`core/models/chat.py` lines 41-48). -/
structure ChatSuccessResponse where
  response : String
  file_suggestions : List FileSuggestion
  metadata : ChatMetadata
deriving DecidableEq, Repr

/-- Python truthiness of the optional `github_token`: `None` and the empty
string are falsy. -/
def tokenTruthy (t : Option String) : Bool :=
  match t with
  | none => false
  | some s => !s.isEmpty

/-- `process_ingestion_request` (`apps/api/simulation_main.py` lines
40-81): the simulation ingestion collaborator, raising the documented
errors on trigger substrings and otherwise returning the documented
success payload. -/
def process_ingestion_request (request : IngestRequest) :
    Except PyExc IngestSuccessResponse :=
  if pyIn "invalid-url" request.repository_url then
    .error ⟨.SimInvalidURLError, "Repository URL format is invalid"⟩
  else if pyIn "not-found" request.repository_url then
    .error ⟨.FileNotFoundErrorC, "Repository does not exist or is not accessible"⟩
  else if pyIn "private" request.repository_url && !tokenTruthy request.github_token then
    .error ⟨.PermissionErrorC, "Private repository requires GitHub token"⟩
  else if tokenTruthy request.github_token &&
      pyIn "invalid-token" (request.github_token.getD "") then
    .error ⟨.SimInvalidTokenError, "GitHub token is invalid or expired"⟩
  else if tokenTruthy request.github_token &&
      pyIn "insufficient-permissions" (request.github_token.getD "") then
    .error ⟨.SimInsufficientPermissionsError, "Token lacks required repository permissions"⟩
  else if pyIn "repo-too-large" request.repository_url then
    .error ⟨.SimRepoTooLargeError, "Repository exceeds processing size limits"⟩
  else if pyIn "processing-failed" request.repository_url then
    .error ⟨.SimProcessingFailedError, "Repository processing failed"⟩
  else if pyIn "storage-error" request.repository_url then
    .error ⟨.SimStorageError, "Failed to store repository data"⟩
  else if pyIn "fail-processing" request.repository_url then
    .error ⟨.ExceptionC, "Simulated repository processing failure."⟩
  else
    .ok ⟨true, "repo-a1b2c3d4", "Repository successfully processed and indexed",
      ⟨247, 45.2⟩⟩

/-- The success payload built at `apps/api/simulation_main.py` lines
102-124 by the simulation chat collaborator. -/
def simChatSuccess : ChatSuccessResponse :=
  { response := "User authentication is handled primarily in the authentication module. I found several relevant files that implement different aspects of the authentication system."
    file_suggestions :=
      [ { file_name := "auth.js"
          file_path := "/src/utils/auth.js"
          github_url := "https://github.com/facebook/react/blob/main/src/utils/auth.js"
          description := "Core authentication utility module that handles user login validation, token generation, and session management..."
          relevance_score := 0.95 },
        { file_name := "LoginComponent.jsx"
          file_path := "/src/components/LoginComponent.jsx"
          github_url := "https://github.com/facebook/react/blob/main/src/components/LoginComponent.jsx"
          description := "React component for user login interface. Handles form validation, user input processing, and authentication API calls."
          relevance_score := 0.87 } ]
    metadata := { processing_time_ms := 1247, search_strategy := "semantic_search" } }

/-- `process_chat_request` (`apps/api/simulation_main.py` lines 84-124):
the simulation chat collaborator. -/
def process_chat_request (request : ChatRequest) :
    Except PyExc ChatSuccessResponse :=
  if request.repository_id == "repo-not-indexed" then
    .error ⟨.FileNotFoundErrorC, "Repository ID not found in system"⟩
  else if pyIn "unprocessable" request.message then
    .error ⟨.ValueErrorC, "Query cannot be processed by agent system"⟩
  else if pyIn "unavailable" request.message then
    .error ⟨.ConnectionErrorC, "Chat agent system is unavailable"⟩
  else
    .ok simChatSuccess

/-- `IngestionService.process_repository` (`apps/api/services/ingestion.py`
lines 7-25): always raises `NotImplementedError`. -/
def IngestionService.process_repository (_ : IngestRequest) :
    Except PyExc IngestSuccessResponse :=
  .error ⟨.NotImplementedErrorC, "Ingestion agent integration pending"⟩

/-- `ChatService.process_query` (`apps/api/services/chat.py` lines 7-25):
always raises `NotImplementedError`. -/
def ChatService.process_query (_ : ChatRequest) :
    Except PyExc ChatSuccessResponse :=
  .error ⟨.NotImplementedErrorC, "Chat agent integration pending"⟩

/-- What the client of `POST /api/ingest` observes: a 200 success body, an
error body with its status, the transport-level 422 of schema validation
(issued before the handler body runs), or an unstructured 500 when an
exception escapes the handler itself. -/
inductive IngestHttp where
  | ok (r : IngestSuccessResponse)
  | err (status : Nat) (body : IngestErrorResponse)
  | validationError
  | internalFault
deriving DecidableEq, Repr

/-- Like `IngestHttp`, for `POST /api/chat`. -/
inductive ChatHttp where
  | ok (r : ChatSuccessResponse)
  | err (status : Nat) (body : ChatErrorResponse)
  | validationError
  | internalFault
deriving DecidableEq, Repr

/-- The `/api/ingest` route handler (`apps/api/routes/ingestion.py` lines
24-36), parameterised by its collaborator: FastAPI validates the body
first (422 on failure, before any collaborator call), then
`try: return await collab(request) except Exception as e: return
handle_ingestion_error(e)`.  `internalFault` is the case where
`handle_ingestion_error` itself raises. -/
def ingest_repository (collab : IngestRequest → Except PyExc IngestSuccessResponse)
    (raw : IngestRequest) : IngestHttp :=
  match IngestRequest.validate? raw with
  | none => .validationError
  | some request =>
    match collab request with
    | .ok r => .ok r
    | .error e =>
      match handle_ingestion_error e with
      | some (st, b) => .err st b
      | none => .internalFault

/-- The `/api/chat` route handler (`apps/api/routes/chat.py` lines 22-33),
parameterised by its collaborator. -/
def chat_with_repository (collab : ChatRequest → Except PyExc ChatSuccessResponse)
    (raw : ChatRequest) : ChatHttp :=
  match ChatRequest.validate? raw with
  | none => .validationError
  | some request =>
    match collab request with
    | .ok r => .ok r
    | .error e =>
      match handle_chat_error e with
      | some (st, b) => .err st b
      | none => .internalFault

/-- The simulation app's `POST /api/ingest` endpoint
(`apps/api/simulation_main.py` lines 156-218): same validation, the
simulation collaborator, and the inline except-chain. -/
def sim_ingest_endpoint (raw : IngestRequest) : IngestHttp :=
  match IngestRequest.validate? raw with
  | none => .validationError
  | some request =>
    match process_ingestion_request request with
    | .ok r => .ok r
    | .error e =>
      match sim_ingest_error_chain e with
      | some (st, b) => .err st b
      | none => .internalFault

/-- The simulation app's `POST /api/chat` endpoint
(`apps/api/simulation_main.py` lines 232-268). -/
def sim_chat_endpoint (raw : ChatRequest) : ChatHttp :=
  match ChatRequest.validate? raw with
  | none => .validationError
  | some request =>
    match process_chat_request request with
    | .ok r => .ok r
    | .error e =>
      match sim_chat_error_chain e with
      | some (st, b) => .err st b
      | none => .internalFault

/-- `health_check` (`apps/api/routes/health.py` lines 5-8): the real app's
`GET /` handler, a constant (status, JSON object) pair; the JSON object is
modelled as its key-value list. -/
def health_check : Nat × List (String × String) :=
  (200, [("status", "healthy"), ("service", "agents-locate-api")])

/-- `read_root` (`apps/api/simulation_main.py` lines 138-140): the
simulation app's `GET /` handler. -/
def read_root : Nat × List (String × String) :=
  (200, [("Hello", "World")])

/-- The fall-through condition of the `handle_ingestion_error` if/elif
chain: none of its nine isinstance guards matches, so control reaches the
final `else`. -/
def ingestUnclassified (c : PyClass) : Bool :=
  !isinst c .ExcInvalidURLError && !isinst c .ExcInvalidTokenError &&
    !isinst c .ExcInsufficientPermissionsError && !isinst c .FileNotFoundErrorC &&
    !isinst c .PermissionErrorC && !isinst c .ExcRepoTooLargeError &&
    !isinst c .ExcProcessingFailedError && !isinst c .ExcStorageError &&
    !isinst c .NotImplementedErrorC

/-- The fall-through condition of the `handle_chat_error` if/elif chain:
none of its four isinstance guards matches. -/
def chatUnclassified (c : PyClass) : Bool :=
  !isinst c .FileNotFoundErrorC && !isinst c .ValueErrorC &&
    !isinst c .ConnectionErrorC && !isinst c .NotImplementedErrorC

theorem ingestMkSome (err code : String) (h1 : 1 ≤ err.length)
    (h2 : err.length ≤ 1000) (h3 : 1 ≤ code.length) (h4 : code.length ≤ 50) :
    IngestErrorResponse.mk? err code = some ⟨false, err, code⟩ := by
  unfold IngestErrorResponse.mk?
  exact if_pos ⟨h1, h2, h3, h4⟩

theorem chatMkSome (err code : String) (h1 : 1 ≤ err.length)
    (h2 : err.length ≤ 1000) (h3 : 1 ≤ code.length) (h4 : code.length ≤ 50) :
    ChatErrorResponse.mk? err code = some ⟨false, err, code⟩ := by
  unfold ChatErrorResponse.mk?
  exact if_pos ⟨h1, h2, h3, h4⟩

theorem ingestPair_mk (msg code : String) (st : Nat) (h1 : 1 ≤ msg.length)
    (h2 : msg.length ≤ 1000) (h3 : 1 ≤ code.length) (h4 : code.length ≤ 50) :
    ingestPair ((IngestErrorResponse.mk? msg code).map (fun b => (st, b))) =
      some (st, code) := by
  rw [ingestMkSome msg code h1 h2 h3 h4]
  rfl

theorem chatPair_mk (msg code : String) (st : Nat) (h1 : 1 ≤ msg.length)
    (h2 : msg.length ≤ 1000) (h3 : 1 ≤ code.length) (h4 : code.length ≤ 50) :
    chatPair ((ChatErrorResponse.mk? msg code).map (fun b => (st, b))) =
      some (st, code) := by
  rw [chatMkSome msg code h1 h2 h3 h4]
  rfl

/-- C1: for every domain error kind named in a row of the classification
tables, raising an exception of that kind (with any message that pydantic
accepts into the error body) makes the corresponding classifier return
exactly the row's `(status, error_code)` pair: the nine ingestion rows of
`handle_ingestion_error` and the four chat rows of `handle_chat_error`.
The kinds `RepoNotFound`/`PrivateRepoNoToken` (ingestion) and
`RepoNotIndexed`/`QueryProcessingFailed`/`AgentUnavailable` (chat) are the
builtins `FileNotFoundError`, `PermissionError`, `ValueError` and
`ConnectionError` which the code dispatches on. -/
theorem C1_classification_tables (msg : String) (h1 : 1 ≤ msg.length)
    (h2 : msg.length ≤ 1000) :
    ingestPair (handle_ingestion_error ⟨.ExcInvalidURLError, msg⟩) = some (400, "INVALID_URL") ∧
    ingestPair (handle_ingestion_error ⟨.ExcInvalidTokenError, msg⟩) = some (401, "INVALID_TOKEN") ∧
    ingestPair (handle_ingestion_error ⟨.ExcInsufficientPermissionsError, msg⟩) = some (403, "INSUFFICIENT_PERMISSIONS") ∧
    ingestPair (handle_ingestion_error ⟨.FileNotFoundErrorC, msg⟩) = some (404, "REPO_NOT_FOUND") ∧
    ingestPair (handle_ingestion_error ⟨.PermissionErrorC, msg⟩) = some (401, "PRIVATE_REPO_NO_TOKEN") ∧
    ingestPair (handle_ingestion_error ⟨.ExcRepoTooLargeError, msg⟩) = some (422, "REPO_TOO_LARGE") ∧
    ingestPair (handle_ingestion_error ⟨.ExcProcessingFailedError, msg⟩) = some (422, "PROCESSING_FAILED") ∧
    ingestPair (handle_ingestion_error ⟨.ExcStorageError, msg⟩) = some (500, "STORAGE_ERROR") ∧
    ingestPair (handle_ingestion_error ⟨.NotImplementedErrorC, msg⟩) = some (501, "NOT_IMPLEMENTED") ∧
    chatPair (handle_chat_error ⟨.FileNotFoundErrorC, msg⟩) = some (404, "REPO_NOT_INDEXED") ∧
    chatPair (handle_chat_error ⟨.ValueErrorC, msg⟩) = some (422, "QUERY_PROCESSING_FAILED") ∧
    chatPair (handle_chat_error ⟨.ConnectionErrorC, msg⟩) = some (500, "AGENT_UNAVAILABLE") ∧
    chatPair (handle_chat_error ⟨.NotImplementedErrorC, msg⟩) = some (501, "NOT_IMPLEMENTED") := by
  refine ⟨?_, ?_, ?_, ?_, ?_, ?_, ?_, ?_, ?_, ?_, ?_, ?_, ?_⟩
  · exact ingestPair_mk msg "INVALID_URL" 400 h1 h2 (by decide) (by decide)
  · exact ingestPair_mk msg "INVALID_TOKEN" 401 h1 h2 (by decide) (by decide)
  · exact ingestPair_mk msg "INSUFFICIENT_PERMISSIONS" 403 h1 h2 (by decide) (by decide)
  · exact ingestPair_mk msg "REPO_NOT_FOUND" 404 h1 h2 (by decide) (by decide)
  · exact ingestPair_mk msg "PRIVATE_REPO_NO_TOKEN" 401 h1 h2 (by decide) (by decide)
  · exact ingestPair_mk msg "REPO_TOO_LARGE" 422 h1 h2 (by decide) (by decide)
  · exact ingestPair_mk msg "PROCESSING_FAILED" 422 h1 h2 (by decide) (by decide)
  · exact ingestPair_mk msg "STORAGE_ERROR" 500 h1 h2 (by decide) (by decide)
  · rfl
  · exact chatPair_mk msg "REPO_NOT_INDEXED" 404 h1 h2 (by decide) (by decide)
  · exact chatPair_mk msg "QUERY_PROCESSING_FAILED" 422 h1 h2 (by decide) (by decide)
  · exact chatPair_mk msg "AGENT_UNAVAILABLE" 500 h1 h2 (by decide) (by decide)
  · rfl

/-- Witness for C1 at the concrete message "x". -/
theorem C1_classification_tables_witness :
    ingestPair (handle_ingestion_error ⟨.ExcInvalidURLError, "x"⟩) = some (400, "INVALID_URL") ∧
    ingestPair (handle_ingestion_error ⟨.ExcInvalidTokenError, "x"⟩) = some (401, "INVALID_TOKEN") ∧
    ingestPair (handle_ingestion_error ⟨.ExcInsufficientPermissionsError, "x"⟩) = some (403, "INSUFFICIENT_PERMISSIONS") ∧
    ingestPair (handle_ingestion_error ⟨.FileNotFoundErrorC, "x"⟩) = some (404, "REPO_NOT_FOUND") ∧
    ingestPair (handle_ingestion_error ⟨.PermissionErrorC, "x"⟩) = some (401, "PRIVATE_REPO_NO_TOKEN") ∧
    ingestPair (handle_ingestion_error ⟨.ExcRepoTooLargeError, "x"⟩) = some (422, "REPO_TOO_LARGE") ∧
    ingestPair (handle_ingestion_error ⟨.ExcProcessingFailedError, "x"⟩) = some (422, "PROCESSING_FAILED") ∧
    ingestPair (handle_ingestion_error ⟨.ExcStorageError, "x"⟩) = some (500, "STORAGE_ERROR") ∧
    ingestPair (handle_ingestion_error ⟨.NotImplementedErrorC, "x"⟩) = some (501, "NOT_IMPLEMENTED") ∧
    chatPair (handle_chat_error ⟨.FileNotFoundErrorC, "x"⟩) = some (404, "REPO_NOT_INDEXED") ∧
    chatPair (handle_chat_error ⟨.ValueErrorC, "x"⟩) = some (422, "QUERY_PROCESSING_FAILED") ∧
    chatPair (handle_chat_error ⟨.ConnectionErrorC, "x"⟩) = some (500, "AGENT_UNAVAILABLE") ∧
    chatPair (handle_chat_error ⟨.NotImplementedErrorC, "x"⟩) = some (501, "NOT_IMPLEMENTED") :=
  C1_classification_tables "x" (by decide) (by decide)

/-- C2 counterexample: a `NotImplementedError` raised during ingestion
(exactly what `IngestionService.process_repository` raises) is classified
`(501, NOT_IMPLEMENTED)` by the real router's `handle_ingestion_error`
but `(500, AGENT_ERROR)` by the simulation router's inline except-chain,
which has no `NotImplementedError` clause; so the two implementations do
not produce the same pair for every collaborator exception. -/
theorem C2_notImplemented_disagreement :
    ingestPair (handle_ingestion_error ⟨.NotImplementedErrorC, "Ingestion agent integration pending"⟩) =
      some (501, "NOT_IMPLEMENTED") ∧
    ingestPair (sim_ingest_error_chain ⟨.NotImplementedErrorC, "Ingestion agent integration pending"⟩) =
      some (500, "AGENT_ERROR") ∧
    chatPair (handle_chat_error ⟨.NotImplementedErrorC, "Chat agent integration pending"⟩) =
      some (501, "NOT_IMPLEMENTED") ∧
    chatPair (sim_chat_error_chain ⟨.NotImplementedErrorC, "Chat agent integration pending"⟩) =
      some (500, "AGENT_ERROR") := by
  decide

/-- C2 amended: outside `NotImplementedError` — and reading each
implementation's taxonomy through the kind-preserving correspondence
`excToSim`, since each module dispatches on its own classes — the two
implementations agree.  For every exception whose class is not a
simulation-module class and not a `NotImplementedError`, the real
ingestion classifier produces the same `(status, error_code)` pair as the
simulation except-chain on the corresponding simulation-module class with
the same message, and the real chat classifier agrees with the simulation
chat except-chain on the exception itself.  On `NotImplementedError` they
disagree (501/NOT_IMPLEMENTED versus 500/AGENT_ERROR). -/
theorem C2_real_sim_agreement (e : PyExc)
    (hni : isinst e.cls .NotImplementedErrorC = false)
    (hsim : isSimClass e.cls = false) :
    ingestPair (handle_ingestion_error e) =
      ingestPair (sim_ingest_error_chain ⟨excToSim e.cls, e.msg⟩) ∧
    chatPair (handle_chat_error e) = chatPair (sim_chat_error_chain e) := by
  obtain ⟨cls, msg⟩ := e
  dsimp only at hni hsim ⊢
  cases cls <;> first
    | exact absurd hni (by decide)
    | exact absurd hsim (by decide)
    | exact ⟨rfl, rfl⟩

/-- Witness for C2's amended statement at `InvalidURLError("boom")` from
the `apps.api.exceptions` module, whose simulation correspondent is the
simulation module's `InvalidURLError`. -/
theorem C2_real_sim_agreement_witness :
    ingestPair (handle_ingestion_error ⟨.ExcInvalidURLError, "boom"⟩) =
      ingestPair (sim_ingest_error_chain ⟨.SimInvalidURLError, "boom"⟩) ∧
    chatPair (handle_chat_error ⟨.ExcInvalidURLError, "boom"⟩) =
      chatPair (sim_chat_error_chain ⟨.ExcInvalidURLError, "boom"⟩) :=
  C2_real_sim_agreement ⟨.ExcInvalidURLError, "boom"⟩ (by decide) (by decide)

/-- C3: whenever no isinstance guard of the respective if/elif chain
matches, both classifiers return status 500 with `error_code`
`"AGENT_ERROR"` and a fixed literal message that does not depend on the
raised exception at all (in particular not on its message text), and the
chain is total: the final `else` leaves no exception unhandled. -/
theorem C3_fallback_agent_error (e : PyExc) :
    (ingestUnclassified e.cls = true →
      handle_ingestion_error e =
        some (500, ⟨false, "An unexpected error occurred during repository processing.",
          "AGENT_ERROR"⟩)) ∧
    (chatUnclassified e.cls = true →
      handle_chat_error e =
        some (500, ⟨false, "An unexpected error occurred while processing the chat request.",
          "AGENT_ERROR"⟩)) := by
  obtain ⟨cls, msg⟩ := e
  dsimp only
  cases cls <;> refine ⟨fun h => ?_, fun h => ?_⟩ <;>
    first
      | rfl
      | exact absurd h (by decide)

/-- Witness for C3 at `RuntimeError("boom")`, which matches no guard of
either chain. -/
theorem C3_fallback_agent_error_witness :
    ingestUnclassified PyClass.RuntimeErrorC = true ∧
    handle_ingestion_error ⟨.RuntimeErrorC, "boom"⟩ =
      some (500, ⟨false, "An unexpected error occurred during repository processing.",
        "AGENT_ERROR"⟩) ∧
    chatUnclassified PyClass.RuntimeErrorC = true ∧
    handle_chat_error ⟨.RuntimeErrorC, "boom"⟩ =
      some (500, ⟨false, "An unexpected error occurred while processing the chat request.",
        "AGENT_ERROR"⟩) :=
  ⟨by decide, (C3_fallback_agent_error ⟨.RuntimeErrorC, "boom"⟩).1 (by decide),
   by decide, (C3_fallback_agent_error ⟨.RuntimeErrorC, "boom"⟩).2 (by decide)⟩

set_option maxRecDepth 100000 in
/-- C4 is violated by the code: the branches that put `str(error)` into the
error body inherit `IngestErrorResponse`/`ChatErrorResponse`'s
`min_length=1`/`max_length=1000` constraint on `error`, so an exception
with an empty message (or one longer than 1000 characters) makes the
pydantic construction inside the error handler itself raise (`= none`
here), and the route's `except Exception` block re-raises it: the client
gets an unstructured transport-level 500 (`internalFault`) instead of the
structured JSON error body the claim promises. -/
theorem C4_error_body_construction_fails :
    handle_ingestion_error ⟨.ExcInvalidURLError, ""⟩ = none ∧
    handle_chat_error ⟨.ValueErrorC, ""⟩ = none ∧
    ingest_repository (fun _ => .error ⟨.ExcInvalidURLError, ""⟩)
      ⟨"https://github.com/foo/bar", none⟩ = .internalFault ∧
    chat_with_repository (fun _ => .error ⟨.ValueErrorC, ""⟩)
      ⟨"hello", "repo-a1b2c3d4", none⟩ = .internalFault ∧
    handle_ingestion_error ⟨.ExcProcessingFailedError, String.mk (List.replicate 1001 'a')⟩ =
      none := by
  decide

/-- C5 counterexample: `"https://github.com/a/b\n"` does not match
`^https://github\.com/[A-Za-z0-9._-]+/[A-Za-z0-9._-]+/?$` read strictly
and is within 19-200 characters, yet Python's `re.match` accepts it
because `$` also matches just before a trailing newline, so
`validate_github_url` passes it, `POST /api/ingest` does not answer 422,
and the simulation collaborator is invoked. -/
theorem C5_trailing_newline_reaches_collaborator :
    strict_github_url_match "https://github.com/a/b\n" = false ∧
    19 ≤ ("https://github.com/a/b\n" : String).length ∧
    ("https://github.com/a/b\n" : String).length ≤ 200 ∧
    validate_github_url "https://github.com/a/b\n" = true ∧
    sim_ingest_endpoint ⟨"https://github.com/a/b\n", none⟩ ≠ IngestHttp.validationError := by
  decide

theorem IngestRequest.validate?_none (raw : IngestRequest)
    (h : validate_github_url raw.repository_url = false ∨
      raw.repository_url.length < 19 ∨ 200 < raw.repository_url.length) :
    IngestRequest.validate? raw = none := by
  rcases h with h | h | h
  · simp [IngestRequest.validate?, h]
  · simp [IngestRequest.validate?, Nat.not_le_of_lt h]
  · simp [IngestRequest.validate?, Nat.not_le_of_lt h]

/-- C5 amended: for every `IngestRequest` whose `repository_url` fails the
code's URL check — `re.match` under Python semantics, which accepts the
pattern's strict matches and additionally a strict match followed by one
trailing newline — or falls outside 19-200 characters, `POST /api/ingest`
answers the schema-validation 422 in both the real route (whatever its
collaborator) and the simulation route, and no collaborator is invoked:
the outcome is `validationError` independently of the collaborator. -/
theorem C5_invalid_url_rejected_before_collaborator (raw : IngestRequest)
    (h : validate_github_url raw.repository_url = false ∨
      raw.repository_url.length < 19 ∨ 200 < raw.repository_url.length) :
    (∀ collab, ingest_repository collab raw = .validationError) ∧
    sim_ingest_endpoint raw = .validationError := by
  have hv := IngestRequest.validate?_none raw h
  exact ⟨fun collab => by simp [ingest_repository, hv], by simp [sim_ingest_endpoint, hv]⟩

/-- Witness for C5's amended statement: a non-`https` URL of legal length
is rejected with the validation 422 in both routes. -/
theorem C5_invalid_url_rejected_witness :
    ingest_repository process_ingestion_request ⟨"http://github.com/a/b", none⟩ =
      .validationError ∧
    sim_ingest_endpoint ⟨"http://github.com/a/b", none⟩ = .validationError :=
  ⟨(C5_invalid_url_rejected_before_collaborator ⟨"http://github.com/a/b", none⟩
      (Or.inl (by decide))).1 process_ingestion_request,
   (C5_invalid_url_rejected_before_collaborator ⟨"http://github.com/a/b", none⟩
      (Or.inl (by decide))).2⟩

/-- C6: the declarative bound (`max_items=10`) and the explicit field
validator on `ChatRequest.conversation_history` agree on every value of
the field — both accept exactly the absent history and histories of at
most 10 entries — and an 11-entry history is rejected through either
path. -/
theorem C6_history_checks_agree :
    (∀ v, conversation_history_max_items v = validate_conversation_history v) ∧
    conversation_history_max_items (some (List.replicate 11 ⟨"user", "hi"⟩)) = false ∧
    validate_conversation_history (some (List.replicate 11 ⟨"user", "hi"⟩)) = false := by
  refine ⟨?_, by decide, by decide⟩
  intro v
  cases v with
  | none => rfl
  | some l =>
    show decide (l.length ≤ 10) = !decide (10 < l.length)
    rw [← decide_not, decide_eq_decide]
    exact Nat.not_lt.symm

/-- C7: the `repository_id` format round-trips: every string matching
`IngestSuccessResponse`'s `^repo-[a-f0-9]{8}$` pattern is accepted by
`ChatRequest`'s `repository_id` pattern, which is the same expression. -/
theorem C7_repository_id_roundtrip (s : String)
    (h : ingest_repo_id_ok s = true) : chat_repo_id_ok s = true :=
  h

/-- Witness for C7 at the simulation's `repository_id` value
`"repo-a1b2c3d4"` (`simulation_main.py` line 75). -/
theorem C7_repository_id_roundtrip_witness :
    ingest_repo_id_ok "repo-a1b2c3d4" = true ∧
    chat_repo_id_ok "repo-a1b2c3d4" = true :=
  ⟨by decide, C7_repository_id_roundtrip "repo-a1b2c3d4" (by decide)⟩

/-- C8: the literal `"repo-not-indexed"` fails the `^repo-[a-f0-9]{8}$`
pattern, every `ChatRequest` carrying it is answered with the schema 422
before any collaborator runs (whatever the collaborator), and for every
request that passes validation the simulation's trigger guard
`request.repository_id == "repo-not-indexed"` is false, so its
`RepoNotIndexed` branch is unreachable from validated input. -/
theorem C8_repo_not_indexed_unreachable :
    chat_repo_id_ok "repo-not-indexed" = false ∧
    (∀ collab (raw : ChatRequest), raw.repository_id = "repo-not-indexed" →
      chat_with_repository collab raw = .validationError) ∧
    (∀ raw req, ChatRequest.validate? raw = some req →
      (req.repository_id == "repo-not-indexed") = false) := by
  refine ⟨by decide, ?_, ?_⟩
  · intro collab raw hid
    have hv : ChatRequest.validate? raw = none := by
      unfold ChatRequest.validate?
      rw [if_neg]
      intro hcond
      rw [Bool.and_eq_true, Bool.and_eq_true, Bool.and_eq_true, Bool.and_eq_true,
        Bool.and_eq_true] at hcond
      have hok := hcond.1.1.1.2
      rw [hid] at hok
      exact absurd hok (by decide)
    simp [chat_with_repository, hv]
  · intro raw req hv
    unfold ChatRequest.validate? at hv
    split at hv
    case isTrue hcond =>
      injection hv with hv
      subst hv
      rw [Bool.and_eq_true, Bool.and_eq_true, Bool.and_eq_true, Bool.and_eq_true,
        Bool.and_eq_true] at hcond
      have hok := hcond.1.1.1.2
      cases hbe : raw.repository_id == "repo-not-indexed" with
      | false => rfl
      | true =>
        rw [eq_of_beq hbe] at hok
        exact absurd hok (by decide)
    case isFalse => exact absurd hv (by simp)

/-- Witness for C8: a request carrying the literal is rejected at 422, and
a validated request's `repository_id` is not the literal. -/
theorem C8_repo_not_indexed_unreachable_witness :
    chat_with_repository ChatService.process_query ⟨"hello", "repo-not-indexed", none⟩ =
      .validationError ∧
    (((⟨"hello", "repo-a1b2c3d4", none⟩ : ChatRequest)).repository_id ==
      "repo-not-indexed") = false :=
  ⟨C8_repo_not_indexed_unreachable.2.1 ChatService.process_query
      ⟨"hello", "repo-not-indexed", none⟩ rfl,
   C8_repo_not_indexed_unreachable.2.2 ⟨"hello", "repo-a1b2c3d4", none⟩
      ⟨"hello", "repo-a1b2c3d4", none⟩ (by decide)⟩

/-- C9 counterexample: the simulation app's `GET /` handler `read_root`
returns `{"Hello": "World"}` — its body has no `"status"` key at all, so
it is not `{"status": "healthy", "service": <name>}` for any name, and the
claim fails for the simulation app. -/
theorem C9_simulation_root_not_health :
    (read_root.2).lookup "status" = none ∧ read_root.2 = [("Hello", "World")] := by
  decide

/-- C9 amended: the real app's `GET /` always returns 200 with
`{"status": "healthy", "service": "agents-locate-api"}` (the handler is a
constant), while the simulation app's `GET /` always returns 200 with
`{"Hello": "World"}`, not the health shape. -/
theorem C9_health_bodies :
    health_check = (200, [("status", "healthy"), ("service", "agents-locate-api")]) ∧
    read_root = (200, [("Hello", "World")]) :=
  ⟨rfl, rfl⟩

/-- C10: the chat classifier dispatches on the Python class hierarchy:
every exception that is an instance of `ValueError` — in particular the
ingestion-taxonomy classes `InvalidURLError`, `InvalidTokenError` and
`RepoTooLargeError`, which subclass `ValueError` — is classified
`(422, QUERY_PROCESSING_FAILED)` by `handle_chat_error` (for any message
pydantic accepts into the body), never reaching the `(500, AGENT_ERROR)`
catch-all. -/
theorem C10_valueerror_dispatch (e : PyExc) (hv : isinst e.cls .ValueErrorC = true)
    (h1 : 1 ≤ e.msg.length) (h2 : e.msg.length ≤ 1000) :
    chatPair (handle_chat_error e) = some (422, "QUERY_PROCESSING_FAILED") ∧
    isinst PyClass.ExcInvalidURLError .ValueErrorC = true ∧
    isinst PyClass.ExcInvalidTokenError .ValueErrorC = true ∧
    isinst PyClass.ExcRepoTooLargeError .ValueErrorC = true := by
  refine ⟨?_, by decide, by decide, by decide⟩
  obtain ⟨cls, msg⟩ := e
  dsimp only at hv h1 h2 ⊢
  cases cls <;> first
    | exact absurd hv (by decide)
    | exact chatPair_mk msg "QUERY_PROCESSING_FAILED" 422 h1 h2 (by decide) (by decide)

/-- Witness for C10 at `InvalidURLError("q")` from the ingestion
taxonomy. -/
theorem C10_valueerror_dispatch_witness :
    chatPair (handle_chat_error ⟨.ExcInvalidURLError, "q"⟩) =
      some (422, "QUERY_PROCESSING_FAILED") ∧
    isinst PyClass.ExcInvalidURLError .ValueErrorC = true ∧
    isinst PyClass.ExcInvalidTokenError .ValueErrorC = true ∧
    isinst PyClass.ExcRepoTooLargeError .ValueErrorC = true :=
  C10_valueerror_dispatch ⟨.ExcInvalidURLError, "q"⟩ (by decide) (by decide) (by decide)
